import Mathlib

/-!
Verification of the good-practice user-management pipeline of the
Express+Prisma starter repository.

The embedding translates, from the TypeScript source:
  * `src/middleware/validation.ts` — `validateUserProfileUpdate`, `validatePassword`
  * `src/middleware/auth.ts` — `requireAuth`, `requireOwnershipOrAdmin`
  * `src/services/userService.ts` — `UserService` (createUser, updateUserProfile,
    getUserProfile, authenticateUser)
  * `src/repositories/userRepository.ts` — `UserRepository`
  * `src/controllers/userController.ts` — `UserController`

External collaborators (the Prisma-backed relational store and the bcrypt
library) are not part of the repository; they are modelled from the spec as
noted on the corresponding definitions.  JavaScript runtime values appearing
in request bodies are modelled by `JsVal`; an absent key (JS `undefined`)
is `Option.none` at the lookup, JS `null` is `JsVal.null`.
-/

/-- A JSON/JavaScript value as it appears in request and response bodies. -/
inductive JsVal where
  | str (s : String)
  | num (n : Int)
  | jbool (b : Bool)
  | null
  | obj (fields : List (String × JsVal))

/-- A JS object / JSON body: ordered key-value pairs. -/
abbrev Body := List (String × JsVal)

/-- JS truthiness of a value ( `""`, `0`, `false`, `null` are falsy). -/
def truthy : JsVal → Bool
  | .str s => !(s == "")
  | .num n => !(n == 0)
  | .jbool b => b
  | .null => false
  | .obj _ => true

/-- Whitespace skipped by JS `parseInt`. -/
def jsWhitespace (c : Char) : Bool :=
  c == ' ' || c == '\t' || c == '\n' || c == '\r'

/-- Value of a list of decimal digit characters. -/
def digitsVal (cs : List Char) : Nat :=
  cs.foldl (fun a c => a * 10 + (c.toNat - 48)) 0

/-- JS `parseInt(s, 10)`: skip leading whitespace, optional sign, longest
digit run; `none` models `NaN` (no digits at all). -/
def jsParseInt (s : String) : Option Int :=
  let cs := s.data.dropWhile jsWhitespace
  let signRest : Int × List Char :=
    match cs with
    | '-' :: r => (-1, r)
    | '+' :: r => (1, r)
    | r => (1, r)
  let ds := signRest.2.takeWhile Char.isDigit
  if ds.isEmpty then none else some (signRest.1 * (digitsVal ds : Int))

/-- JS strict equality `===` on numbers where `none` models `NaN`
(`NaN === x` is false for every `x`, including `NaN`). -/
def jsNumEq : Option Int → Option Int → Bool
  | some a, some b => a == b
  | _, _ => false

/-- ASCII letter, the class `[a-zA-Z]` of the password validator's regex. -/
def isAsciiLetter (c : Char) : Bool :=
  ('a' ≤ c && c ≤ 'z') || ('A' ≤ c && c ≤ 'Z')

/-- The `User` row of the Prisma schema: id, unique email, password hash and
optional profile columns.  (The creation timestamp is not touched by any
verified operation and is omitted.) -/
structure User where
  id : Int
  email : String
  password : String
  name : Option String := none
  bio : Option String := none
  age : Option Int := none
  phone : Option String := none
deriving DecidableEq, Repr

/-- Modelled from the spec: the backing relational store behind the Prisma
client, a black-box persistence collaborator.  `nextId` is the
auto-increment counter for the immutable numeric identifier. -/
structure Store where
  users : List User
  nextId : Int
deriving DecidableEq, Repr

/-- Typed storage-layer failure raised by the Prisma client. -/
inductive StoreErr where
  | notFound
  | constraintViolation
  | validation
deriving DecidableEq, Repr

/-- A thrown JS error: either `new Error(message)` thrown by repository-layer
business code, or a storage-layer (Prisma) exception. -/
inductive Err where
  | msg (s : String)
  | storeErr (e : StoreErr)
deriving DecidableEq, Repr

/-- `error.message` as read by the controllers' catch blocks.  A storage-layer
exception carries a Prisma-generated message, never equal to any of the
business messages the controllers match on. -/
def errMessage : Err → String
  | .msg s => s
  | .storeErr _ => "PrismaClientError"

/-- An HTTP response: status code and JSON body. -/
structure HRes where
  status : Nat
  body : Body

/-- Modelled from the spec: `prisma.user.findUnique({ where: { id } })`.
Returns the matching row or nothing; the id is `Option Int` because a JS
number may be `NaN` (never matches any row).  In the wired routes a `NaN`
id cannot reach the store (the ownership guard rejects it first). -/
def prismaFindById (st : Store) (id : Option Int) : Option User :=
  match id with
  | none => none
  | some i => st.users.find? (fun u => u.id == i)

/-- Modelled from the spec: `prisma.user.findUnique({ where: { email } })`. -/
def prismaFindByEmail (st : Store) (email : String) : Option User :=
  st.users.find? (fun u => u.email == email)

/-- Coerce a JS value supplied for a nullable string column: `undefined`
and `null` store NULL, a string stores itself, anything else is a
client-side validation error. -/
def toColStr : Option JsVal → Except Err (Option String)
  | none => .ok none
  | some .null => .ok none
  | some (.str s) => .ok (some s)
  | some _ => .error (.storeErr .validation)

/-- Coerce a JS value supplied for a nullable integer column. -/
def toColInt : Option JsVal → Except Err (Option Int)
  | none => .ok none
  | some .null => .ok none
  | some (.num n) => .ok (some n)
  | some _ => .error (.storeErr .validation)

/-- The `data` argument of `prisma.user.create`: email and password are
required strings, the profile fields are raw JS values. -/
structure CreateData where
  email : String
  password : String
  name : Option JsVal := none
  bio : Option JsVal := none
  age : Option JsVal := none
  phone : Option JsVal := none

/-- Modelled from the spec: `prisma.user.create({ data })`.  Fails with the
unique-email `ConstraintViolation` at the storage layer, otherwise inserts
a fresh row with the next identifier. -/
def prismaCreate (st : Store) (d : CreateData) : Except Err (User × Store) :=
  match prismaFindByEmail st d.email with
  | some _ => .error (.storeErr .constraintViolation)
  | none => do
    let name ← toColStr d.name
    let bio ← toColStr d.bio
    let age ← toColInt d.age
    let phone ← toColStr d.phone
    let u : User :=
      { id := st.nextId, email := d.email, password := d.password,
        name := name, bio := bio, age := age, phone := phone }
    .ok (u, { users := st.users ++ [u], nextId := st.nextId + 1 })

/-- The `data` argument of `prisma.user.update` for the profile fields; an
`Option.none` field is JS `undefined` (the column is left untouched). -/
structure UpdateData where
  name : Option JsVal := none
  bio : Option JsVal := none
  age : Option JsVal := none
  phone : Option JsVal := none

/-- Apply one update value to a nullable string column: `undefined` keeps the
old value, `null` clears it, a string replaces it. -/
def applyStrField (v : Option JsVal) (old : Option String) : Except Err (Option String) :=
  match v with
  | none => .ok old
  | some .null => .ok none
  | some (.str s) => .ok (some s)
  | some _ => .error (.storeErr .validation)

/-- Apply one update value to a nullable integer column. -/
def applyIntField (v : Option JsVal) (old : Option Int) : Except Err (Option Int) :=
  match v with
  | none => .ok old
  | some .null => .ok none
  | some (.num n) => .ok (some n)
  | some _ => .error (.storeErr .validation)

/-- Apply an update `data` object to one row. -/
def applyUpdate (d : UpdateData) (u : User) : Except Err User := do
  let name ← applyStrField d.name u.name
  let bio ← applyStrField d.bio u.bio
  let age ← applyIntField d.age u.age
  let phone ← applyStrField d.phone u.phone
  .ok { u with name := name, bio := bio, age := age, phone := phone }

/-- Modelled from the spec: `prisma.user.update({ where: { id }, data })`.
Raises the typed `NotFound` storage error when no row has the id. -/
def prismaUpdate (st : Store) (id : Option Int) (d : UpdateData) : Except Err (User × Store) :=
  match id with
  | none => .error (.storeErr .validation)
  | some i =>
    match st.users.find? (fun u => u.id == i) with
    | none => .error (.storeErr .notFound)
    | some u =>
      match applyUpdate d u with
      | .error e => .error e
      | .ok u' =>
        .ok (u', { users := st.users.map (fun v => if v.id == i then u' else v),
                   nextId := st.nextId })

/-- Modelled from the spec: `prisma.user.delete({ where: { id } })`.
Raises the typed `NotFound` storage error when no row has the id. -/
def prismaDelete (st : Store) (id : Option Int) : Except Err (User × Store) :=
  match id with
  | none => .error (.storeErr .validation)
  | some i =>
    match st.users.find? (fun u => u.id == i) with
    | none => .error (.storeErr .notFound)
    | some u =>
      .ok (u, { users := st.users.filter (fun v => !(v.id == i)), nextId := st.nextId })

/-- `UserRepository.findById`: delegates to the Prisma client. -/
def UserRepository.findById (st : Store) (id : Option Int) : Option User :=
  prismaFindById st id

/-- `UserRepository.findByEmail`: delegates to the Prisma client. -/
def UserRepository.findByEmail (st : Store) (email : String) : Option User :=
  prismaFindByEmail st email

/-- `UserRepository.create`: delegates to the Prisma client. -/
def UserRepository.create (st : Store) (d : CreateData) : Except Err (User × Store) :=
  prismaCreate st d

/-- `UserRepository.update`: delegates to the Prisma client. -/
def UserRepository.update (st : Store) (id : Option Int) (d : UpdateData) :
    Except Err (User × Store) :=
  prismaUpdate st id d

/-- `UserRepository.delete`: delegates to the Prisma client. -/
def UserRepository.delete (st : Store) (id : Option Int) : Except Err (User × Store) :=
  prismaDelete st id

/-- A nullable string column as it appears in a JSON response. -/
def optStrVal : Option String → JsVal
  | none => .null
  | some s => .str s

/-- A nullable integer column as it appears in a JSON response. -/
def optIntVal : Option Int → JsVal
  | none => .null
  | some n => .num n

/-- The JSON object Prisma returns for a row (every column, password
included). -/
def userToObj (u : User) : Body :=
  [("id", .num u.id), ("email", .str u.email), ("password", .str u.password),
   ("name", optStrVal u.name), ("bio", optStrVal u.bio),
   ("age", optIntVal u.age), ("phone", optStrVal u.phone)]

/-- Rest-destructuring `const \x7b password, ...rest \x7d = user`: the object
minus its `password` key. -/
def stripPassword (o : Body) : Body :=
  o.filter (fun kv => kv.1 != "password")

/-- `UserService.createUser(email, password, name?, bio?, age?, phone?)`:
checks existence by email, hashes the password with `bcrypt.hash(password, 10)`
and delegates creation to the repository.  The bcrypt hash function is an
external collaborator passed as a parameter (`hash plaintext saltRounds`). -/
def UserService.createUser (hash : String → Nat → String)
    (email password : String) (name bio age phone : Option JsVal)
    (st : Store) : Except Err (User × Store) :=
  match UserRepository.findByEmail st email with
  | some _ => .error (.msg "User with this email already exists")
  | none =>
    let saltRounds := 10
    let hashedPassword := hash password saltRounds
    UserRepository.create st
      { email := email, password := hashedPassword,
        name := name, bio := bio, age := age, phone := phone }

/-- The service's defense-in-depth age check
`updates.age !== undefined && (updates.age < 0 || updates.age > 150)`.
On a number it is the range test; `null` and other non-numbers compare
false in JS (`null < 0` and `null > 150` are both false) — in the wired
route non-numbers cannot reach the service (the validator rejects them). -/
def ageInvalid : Option JsVal → Bool
  | some (.num n) => n < 0 || n > 150
  | _ => false

/-- `UserService.updateUserProfile(userId, updates)`: requires the user to
exist, re-validates the age range, then delegates to the repository. -/
def UserService.updateUserProfile (userId : Option Int) (updates : UpdateData)
    (st : Store) : Except Err (User × Store) :=
  match UserRepository.findById st userId with
  | none => .error (.msg "User not found")
  | some _ =>
    if ageInvalid updates.age then .error (.msg "Invalid age")
    else UserRepository.update st userId updates

/-- `UserService.getUserProfile(userId)`: requires the user to exist and
returns it with the password key destructured away. -/
def UserService.getUserProfile (userId : Option Int) (st : Store) :
    Except Err Body :=
  match UserRepository.findById st userId with
  | none => .error (.msg "User not found")
  | some u => .ok (stripPassword (userToObj u))

/-- `UserService.authenticateUser(email, password)`: throws the one generic
`Invalid credentials` error when the email is unknown and when
`bcrypt.compare(password, user.password)` fails; on success returns the
user minus its password.  `compare plaintext storedHash` is the external
bcrypt comparison passed as a parameter. -/
def UserService.authenticateUser (compare : String → String → Bool)
    (email password : String) (st : Store) : Except Err Body :=
  match UserRepository.findByEmail st email with
  | none => .error (.msg "Invalid credentials")
  | some u =>
    if compare password u.password then .ok (stripPassword (userToObj u))
    else .error (.msg "Invalid credentials")

/-- `UserController.createUser`: body fields are destructured; `email` and
`password` arrive as strings (the route's validators guarantee it); the
created user is returned with the password destructured away; the duplicate
error maps to 409, everything else to a generic 500. -/
def UserController.createUser (hash : String → Nat → String)
    (email password : String) (name bio age phone : Option JsVal)
    (st : Store) : HRes × Store :=
  match UserService.createUser hash email password name bio age phone st with
  | .ok (u, st') =>
    ({ status := 201,
       body := [("message", .str "User created successfully"),
                ("user", .obj (stripPassword (userToObj u)))] }, st')
  | .error e =>
    if errMessage e = "User with this email already exists" then
      ({ status := 409,
         body := [("error", .str "User with this email already exists")] }, st)
    else
      ({ status := 500, body := [("error", .str "Internal server error")] }, st)

/-- `UserController.getUserProfile`: parses the path id with
`parseInt(req.params.id, 10)` and maps `User not found` to 404, everything
else to a generic 500. -/
def UserController.getUserProfile (idStr : String) (st : Store) : HRes :=
  let userId := jsParseInt idStr
  match UserService.getUserProfile userId st with
  | .ok user => { status := 200, body := user }
  | .error e =>
    if errMessage e = "User not found" then
      { status := 404, body := [("error", .str "User not found")] }
    else
      { status := 500, body := [("error", .str "Internal server error")] }

/-- `UserController.updateUserProfile`: destructures exactly
`\x7b name, bio, age, phone \x7d` from the body (every other key is dropped),
delegates to the service, strips the password from the updated user and maps
`User not found` to 404 and `Invalid age` to 400. -/
def UserController.updateUserProfile (idStr : String) (body : Body)
    (st : Store) : HRes × Store :=
  let userId := jsParseInt idStr
  let updates : UpdateData :=
    { name := body.lookup "name", bio := body.lookup "bio",
      age := body.lookup "age", phone := body.lookup "phone" }
  match UserService.updateUserProfile userId updates st with
  | .ok (u, st') =>
    ({ status := 200,
       body := [("message", .str "Profile updated successfully"),
                ("user", .obj (stripPassword (userToObj u)))] }, st')
  | .error e =>
    if errMessage e = "User not found" then
      ({ status := 404, body := [("error", .str "User not found")] }, st)
    else if errMessage e = "Invalid age" then
      ({ status := 400, body := [("error", .str "Invalid age")] }, st)
    else
      ({ status := 500, body := [("error", .str "Internal server error")] }, st)

/-- The identity and role `requireAuth` attaches to the request for
downstream handlers: `userId` is `parseInt(header)` (possibly `NaN`,
modelled `none`), `userRole` the raw role header. -/
structure AuthCtx where
  userId : Option Int
  userRole : Option String
deriving DecidableEq, Repr

/-- `requireAuth`: rejects with 401 when the `x-user-id` header is falsy
(absent or empty), otherwise attaches `parseInt(userId, 10)` and the raw
`x-user-role` header to the request and passes. -/
def requireAuth (xUserId xUserRole : Option String) : Except HRes AuthCtx :=
  match xUserId with
  | none => .error { status := 401, body := [("error", .str "Unauthorized: User ID required")] }
  | some s =>
    if s == "" then
      .error { status := 401, body := [("error", .str "Unauthorized: User ID required")] }
    else
      .ok { userId := jsParseInt s, userRole := xUserRole }

/-- `requireOwnershipOrAdmin`: 400 when `parseInt(req.params.id, 10)` is
`NaN`; otherwise passes iff `userId === targetUserId` or
`userRole === 'admin'`, and rejects with 403 in every other case. -/
def requireOwnershipOrAdmin (ctx : AuthCtx) (idParam : String) : Except HRes Unit :=
  match jsParseInt idParam with
  | none => .error { status := 400, body := [("error", .str "Invalid user ID")] }
  | some t =>
    if !jsNumEq ctx.userId (some t) && !(ctx.userRole == some "admin") then
      .error { status := 403,
               body := [("error", .str "Forbidden: Cannot access other user resources")] }
    else .ok ()

/-- The `name` branch of `validateUserProfileUpdate`. -/
def checkName : Option JsVal → Except HRes Unit
  | none => .ok ()
  | some (.str s) =>
    if s.trim.length == 0 then
      .error { status := 400, body := [("error", .str "Name must be a non-empty string")] }
    else if s.length > 100 then
      .error { status := 400, body := [("error", .str "Name must be less than 100 characters")] }
    else .ok ()
  | some _ =>
    .error { status := 400, body := [("error", .str "Name must be a non-empty string")] }

/-- The `bio` branch of `validateUserProfileUpdate`. -/
def checkBio : Option JsVal → Except HRes Unit
  | none => .ok ()
  | some (.str s) =>
    if s.length > 500 then
      .error { status := 400, body := [("error", .str "Bio must be less than 500 characters")] }
    else .ok ()
  | some _ =>
    .error { status := 400, body := [("error", .str "Bio must be a string")] }

/-- The `age` branch of `validateUserProfileUpdate`. -/
def checkAge : Option JsVal → Except HRes Unit
  | none => .ok ()
  | some (.num n) =>
    if n < 0 || n > 150 then
      .error { status := 400, body := [("error", .str "Age must be a number between 0 and 150")] }
    else .ok ()
  | some _ =>
    .error { status := 400, body := [("error", .str "Age must be a number between 0 and 150")] }

/-- Character class `[\d\s-()]` of the phone regex. -/
def isPhoneChar (c : Char) : Bool :=
  c.isDigit || c == ' ' || c == '\t' || c == '\n' || c == '\r' || c == '-' || c == '(' || c == ')'

/-- The phone regex `/^\+?[\d\s-()]\x7b10,\x7d$/`: optional leading `+`,
then at least ten characters drawn from digits/whitespace/dash/parentheses. -/
def phoneOk (s : String) : Bool :=
  let rest := if s.startsWith "+" then s.drop 1 else s
  decide (10 ≤ rest.length) && rest.data.all isPhoneChar

/-- The `phone` branch of `validateUserProfileUpdate`: the only branch that
tests for `null` in addition to `undefined`. -/
def checkPhone : Option JsVal → Except HRes Unit
  | none => .ok ()
  | some .null => .ok ()
  | some (.str s) =>
    if phoneOk s then .ok ()
    else .error { status := 400, body := [("error", .str "Invalid phone number format")] }
  | some _ =>
    .error { status := 400, body := [("error", .str "Phone must be a string")] }

/-- `validateUserProfileUpdate`: checks name, bio, age, phone in order and
halts at the first violated rule. -/
def validateUserProfileUpdate (body : Body) : Except HRes Unit := do
  checkName (body.lookup "name")
  checkBio (body.lookup "bio")
  checkAge (body.lookup "age")
  checkPhone (body.lookup "phone")

/-- `validatePassword`: requires a truthy `password`, a string of length at
least 8, containing at least one digit (`\d`) and one ASCII letter
(`[a-zA-Z]`); halts with 400 at the first violated rule. -/
def validatePassword (body : Body) : Except HRes Unit :=
  match body.lookup "password" with
  | none => .error { status := 400, body := [("error", .str "Password is required")] }
  | some v =>
    if !truthy v then
      .error { status := 400, body := [("error", .str "Password is required")] }
    else
      match v with
      | .str s =>
        if s.length < 8 then
          .error { status := 400, body := [("error", .str "Password must be at least 8 characters")] }
        else
          let hasNumber := s.data.any Char.isDigit
          let hasLetter := s.data.any isAsciiLetter
          if !hasNumber || !hasLetter then
            .error { status := 400,
                     body := [("error", .str "Password must contain at least one letter and one number")] }
          else .ok ()
      | _ =>
        .error { status := 400, body := [("error", .str "Password must be at least 8 characters")] }

/-! ### Helper predicates and lemmas -/

/-- Shapes a JS value may take for a nullable string column without
triggering a storage validation error: absent, `null`, or a string. -/
def strish : Option JsVal → Bool
  | none => true
  | some .null => true
  | some (.str _) => true
  | some _ => false

/-- Shapes a JS value may take for a nullable integer column. -/
def numish : Option JsVal → Bool
  | none => true
  | some .null => true
  | some (.num _) => true
  | some _ => false

/-- The value a nullable string column holds after an update. -/
def applyS : Option JsVal → Option String → Option String
  | none, old => old
  | some .null, _ => none
  | some (.str s), _ => some s
  | some _, old => old

/-- The value a nullable integer column holds after an update. -/
def applyN : Option JsVal → Option Int → Option Int
  | none, old => old
  | some .null, _ => none
  | some (.num n), _ => some n
  | some _, old => old

theorem applyStrField_ok (v : Option JsVal) (old : Option String)
    (h : strish v = true) : applyStrField v old = .ok (applyS v old) := by
  cases v with
  | none => rfl
  | some x => cases x <;> first | rfl | simp [strish] at h

theorem applyIntField_ok (v : Option JsVal) (old : Option Int)
    (h : numish v = true) : applyIntField v old = .ok (applyN v old) := by
  cases v with
  | none => rfl
  | some x => cases x <;> first | rfl | simp [numish] at h

theorem toColStr_ok (v : Option JsVal) (h : strish v = true) :
    toColStr v = .ok (applyS v none) := by
  cases v with
  | none => rfl
  | some x => cases x <;> first | rfl | simp [strish] at h

theorem toColInt_ok (v : Option JsVal) (h : numish v = true) :
    toColInt v = .ok (applyN v none) := by
  cases v with
  | none => rfl
  | some x => cases x <;> first | rfl | simp [numish] at h

theorem applyUpdate_ok (d : UpdateData) (u : User)
    (h1 : strish d.name = true) (h2 : strish d.bio = true)
    (h3 : numish d.age = true) (h4 : strish d.phone = true) :
    applyUpdate d u = .ok { u with name := applyS d.name u.name,
                                   bio := applyS d.bio u.bio,
                                   age := applyN d.age u.age,
                                   phone := applyS d.phone u.phone } := by
  unfold applyUpdate
  rw [applyStrField_ok d.name u.name h1, applyStrField_ok d.bio u.bio h2,
      applyIntField_ok d.age u.age h3, applyStrField_ok d.phone u.phone h4]
  rfl

theorem prismaCreate_ok (st : Store) (d : CreateData)
    (hfe : prismaFindByEmail st d.email = none)
    (h1 : strish d.name = true) (h2 : strish d.bio = true)
    (h3 : numish d.age = true) (h4 : strish d.phone = true) :
    prismaCreate st d =
      .ok ({ id := st.nextId, email := d.email, password := d.password,
             name := applyS d.name none, bio := applyS d.bio none,
             age := applyN d.age none, phone := applyS d.phone none },
           { users := st.users ++
               [{ id := st.nextId, email := d.email, password := d.password,
                  name := applyS d.name none, bio := applyS d.bio none,
                  age := applyN d.age none, phone := applyS d.phone none }],
             nextId := st.nextId + 1 }) := by
  unfold prismaCreate
  rw [hfe]
  rw [toColStr_ok d.name h1, toColStr_ok d.bio h2, toColInt_ok d.age h3,
      toColStr_ok d.phone h4]
  rfl

@[simp] theorem exceptBind_ok {ε α β : Type} (a : α) (f : α → Except ε β) :
    (Except.ok a >>= f : Except ε β) = f a := rfl

@[simp] theorem exceptBind_error {ε α β : Type} (e : ε) (f : α → Except ε β) :
    (Except.error e >>= f : Except ε β) = Except.error e := rfl

/-- The key removed by rest-destructuring is absent from the result. -/
theorem lookup_stripPassword (o : Body) : (stripPassword o).lookup "password" = none := by
  induction o with
  | nil => rfl
  | cons kv rest ih =>
    obtain ⟨k, v⟩ := kv
    by_cases h : k = "password"
    · simpa [stripPassword, List.filter_cons, h] using ih
    · have hk : ("password" == k) = false := by
        simp [Ne.symm h]
      have hkeep : (k != "password") = true := by simp [bne, h]
      simp only [stripPassword] at ih ⊢
      rw [List.filter_cons, if_pos hkeep]
      simpa [List.lookup, hk] using ih

theorem find?_append_none {α : Type} (p : α → Bool) (l₁ l₂ : List α)
    (h : l₁.find? p = none) : (l₁ ++ l₂).find? p = l₂.find? p := by
  induction l₁ with
  | nil => rfl
  | cons a l ih =>
    by_cases hpa : p a = true
    · simp [List.find?, hpa] at h
    · have hpa' : p a = false := by simpa using hpa
      simp only [List.cons_append, List.find?, hpa']
      exact ih (by simpa [List.find?, hpa'] using h)

/-- Replacing the found row by id makes the replacement the row found
afterwards, provided the replacement keeps the id. -/
theorem find?_replace (l : List User) (i : Int) (u u' : User)
    (hfind : l.find? (fun v => v.id == i) = some u) (hid : u'.id = i) :
    (l.map (fun v => if v.id == i then u' else v)).find? (fun v => v.id == i) = some u' := by
  induction l with
  | nil => simp [List.find?] at hfind
  | cons a l ih =>
    by_cases hpa : (a.id == i) = true
    · have hu' : (u'.id == i) = true := by simp [hid]
      simp [List.find?, hpa, hu']
    · have hpa' : (a.id == i) = false := by simpa using hpa
      have hfind' : l.find? (fun v => v.id == i) = some u := by
        simpa [List.find?, hpa'] using hfind
      simpa [List.find?, hpa'] using ih hfind'

/-- Rows with a different id survive the replacement unchanged. -/
theorem mem_map_replace (l : List User) (i : Int) (u' v : User)
    (hv : v ∈ l) (hne : v.id ≠ i) :
    v ∈ l.map (fun w => if w.id == i then u' else w) := by
  have : (fun w => if w.id == i then u' else w) v = v := by
    simp [hne]
  exact this ▸ List.mem_map_of_mem _ hv

theorem checkName_error_status (v : Option JsVal) (r : HRes)
    (h : checkName v = .error r) : r.status = 400 := by
  cases v with
  | none => simp [checkName] at h
  | some x =>
    cases x <;> simp only [checkName] at h <;> try split_ifs at h
    all_goals first
      | (injection h with h2; subst h2; rfl)
      | injection h

theorem checkBio_error_status (v : Option JsVal) (r : HRes)
    (h : checkBio v = .error r) : r.status = 400 := by
  cases v with
  | none => simp [checkBio] at h
  | some x =>
    cases x <;> simp only [checkBio] at h <;> try split_ifs at h
    all_goals first
      | (injection h with h2; subst h2; rfl)
      | injection h

theorem checkAge_error_status (v : Option JsVal) (r : HRes)
    (h : checkAge v = .error r) : r.status = 400 := by
  cases v with
  | none => simp [checkAge] at h
  | some x =>
    cases x <;> simp only [checkAge] at h <;> try split_ifs at h
    all_goals first
      | (injection h with h2; subst h2; rfl)
      | injection h

/-- C6: the ownership-or-admin guard rejects a non-numeric path id with the
400 `Invalid user ID` error (distinct from the authorization failure);
with a numeric target it passes exactly when the resolved identity strictly
equals the target or the resolved role is `admin`, and rejects with 403
otherwise; in particular identity 5 with path id 5 passes, identity 5 with
path id 7 passes only with role `admin`, and path id `abc` is the 400 error. -/
theorem C6_ownership_or_admin_guard :
    (∀ (ctx : AuthCtx) (idParam : String),
      (jsParseInt idParam = none →
        requireOwnershipOrAdmin ctx idParam =
          .error { status := 400, body := [("error", .str "Invalid user ID")] }) ∧
      (∀ t : Int, jsParseInt idParam = some t →
        ((jsNumEq ctx.userId (some t) = true ∨ ctx.userRole = some "admin") →
          requireOwnershipOrAdmin ctx idParam = .ok ()) ∧
        (jsNumEq ctx.userId (some t) = false → ctx.userRole ≠ some "admin" →
          requireOwnershipOrAdmin ctx idParam =
            .error { status := 403,
                     body := [("error", .str "Forbidden: Cannot access other user resources")] }))) ∧
    requireOwnershipOrAdmin ⟨some 5, some "user"⟩ "5" = .ok () ∧
    requireOwnershipOrAdmin ⟨some 5, some "user"⟩ "7" =
      .error { status := 403,
               body := [("error", .str "Forbidden: Cannot access other user resources")] } ∧
    requireOwnershipOrAdmin ⟨some 5, some "admin"⟩ "7" = .ok () ∧
    requireOwnershipOrAdmin ⟨some 5, some "user"⟩ "abc" =
      .error { status := 400, body := [("error", .str "Invalid user ID")] } := by
  refine ⟨fun ctx idParam =>
    ⟨fun hnone => ?_, fun t ht => ⟨fun hpass => ?_, fun hne hrole => ?_⟩⟩,
    rfl, rfl, rfl, rfl⟩
  · simp [requireOwnershipOrAdmin, hnone]
  · rcases hpass with h | h
    · simp [requireOwnershipOrAdmin, ht, h]
    · simp [requireOwnershipOrAdmin, ht, h]
  · have h1 : (ctx.userRole == some "admin") = false := by simp [hrole]
    simp [requireOwnershipOrAdmin, ht, hne, h1]

/-- C6 witness: the guard at concrete inputs, through the theorem. -/
theorem C6_ownership_or_admin_guard_witness :
    jsParseInt "abc" = none ∧
    requireOwnershipOrAdmin ⟨some 9, some "user"⟩ "abc" =
      .error { status := 400, body := [("error", .str "Invalid user ID")] } :=
  ⟨by decide, (C6_ownership_or_admin_guard.1 ⟨some 9, some "user"⟩ "abc").1 (by decide)⟩

/-- C9: the authentication guard passes exactly the requests whose
`x-user-id` header is a non-empty string — numeric or not — and attaches
`parseInt` of the header as the resolved identity; when that identity is
`NaN` it never strictly equals a numeric target, so such a caller passes
the ownership-or-admin guard only with the `admin` role. -/
theorem C9_requireAuth_no_numeric_check :
    (∀ (hid role : Option String),
      (∃ ctx, requireAuth hid role = .ok ctx) ↔ ∃ s, hid = some s ∧ s ≠ "") ∧
    (∀ (s : String) (role : Option String), s ≠ "" →
      requireAuth (some s) role = .ok { userId := jsParseInt s, userRole := role }) ∧
    (∀ (s : String) (role : Option String) (idParam : String),
      jsParseInt s = none →
      requireOwnershipOrAdmin { userId := jsParseInt s, userRole := role } idParam = .ok () →
      role = some "admin") := by
  refine ⟨fun hid role => ⟨?_, ?_⟩, fun s role hs => ?_, fun s role idParam hnan hok => ?_⟩
  · rintro ⟨ctx, hctx⟩
    cases hid with
    | none => simp [requireAuth] at hctx
    | some s =>
      by_cases hs : s = ""
      · subst hs; simp [requireAuth] at hctx
      · exact ⟨s, rfl, hs⟩
  · rintro ⟨s, rfl, hs⟩
    exact ⟨{ userId := jsParseInt s, userRole := role }, by simp [requireAuth, hs]⟩
  · simp [requireAuth, hs]
  · by_cases hrole : role = some "admin"
    · exact hrole
    · have h1 : (role == some "admin") = false := by simp [hrole]
      cases hp : jsParseInt idParam with
      | none => simp [requireOwnershipOrAdmin, hp] at hok
      | some t => simp [requireOwnershipOrAdmin, hp, hnan, jsNumEq, h1] at hok

/-- C9 witness: a non-numeric identity header passes authentication, and
passes the ownership guard with the admin role. -/
theorem C9_requireAuth_no_numeric_check_witness :
    jsParseInt "abc" = none ∧
    requireOwnershipOrAdmin { userId := jsParseInt "abc", userRole := some "admin" } "7" = .ok () ∧
    some "admin" = some "admin" :=
  ⟨by decide, rfl,
    C9_requireAuth_no_numeric_check.2.2 "abc" (some "admin") "7" (by decide) rfl⟩

/-- C8: the password validator accepts a body exactly when its `password`
field is a string of length at least 8 containing at least one ASCII letter
and at least one decimal digit; every rejection is a 400 client error
naming the first violated rule; it rejects `short1` and
`alllettersnodigit` and accepts `abc12345`. -/
theorem C8_validatePassword_correct :
    (∀ body : Body,
      validatePassword body = .ok () ↔
        ∃ s, body.lookup "password" = some (.str s) ∧ 8 ≤ s.length ∧
          s.data.any isAsciiLetter = true ∧ s.data.any Char.isDigit = true) ∧
    (∀ (body : Body) (r : HRes), validatePassword body = .error r → r.status = 400) ∧
    validatePassword [("password", .str "short1")] =
      .error { status := 400,
               body := [("error", .str "Password must be at least 8 characters")] } ∧
    validatePassword [("password", .str "alllettersnodigit")] =
      .error { status := 400,
               body := [("error", .str "Password must contain at least one letter and one number")] } ∧
    validatePassword [("password", .str "abc12345")] = .ok () := by
  refine ⟨fun body => ⟨?_, ?_⟩, fun body r hr => ?_, rfl, rfl, rfl⟩
  · intro h
    cases hlk : body.lookup "password" with
    | none => simp [validatePassword, hlk] at h
    | some v =>
      cases v with
      | str s =>
        simp only [validatePassword, hlk] at h
        split_ifs at h with h1 h2 h3 <;> try simp at h
        have hd : s.data.any Char.isDigit = true := by
          rcases Bool.eq_false_or_eq_true (s.data.any Char.isDigit) with ht | hf
          · exact ht
          · exact absurd (by simp [hf]) h3
        have hl : s.data.any isAsciiLetter = true := by
          rcases Bool.eq_false_or_eq_true (s.data.any isAsciiLetter) with ht | hf
          · exact ht
          · exact absurd (by simp [hf]) h3
        exact ⟨s, rfl, by omega, hl, hd⟩
      | num n => simp only [validatePassword, hlk] at h; split_ifs at h <;> simp at h
      | jbool b => simp only [validatePassword, hlk] at h; split_ifs at h <;> simp at h
      | null => simp only [validatePassword, hlk] at h; split_ifs at h <;> simp at h
      | obj o => simp only [validatePassword, hlk] at h; split_ifs at h <;> simp at h
  · rintro ⟨s, hs, hlen, hlet, hdig⟩
    have hne : s ≠ "" := by
      intro he
      rw [he] at hlen
      simp [String.length] at hlen
    have h8 : ¬ s.length < 8 := by omega
    simp [validatePassword, hs, truthy, hne, h8, hlet, hdig]
  · cases hlk : body.lookup "password" with
    | none =>
      simp only [validatePassword, hlk] at hr
      injection hr with h2
      subst h2
      rfl
    | some v =>
      cases v <;> simp only [validatePassword, hlk] at hr <;> try split_ifs at hr
      all_goals first
        | (injection hr with h2; subst h2; rfl)
        | injection hr

/-- C8 witness: the validator at concrete inputs, through the theorem. -/
theorem C8_validatePassword_correct_witness :
    validatePassword [("password", .str "0nly7ch")] =
      .error { status := 400,
               body := [("error", .str "Password must be at least 8 characters")] } ∧
    ({ status := 400,
       body := [("error", .str "Password must be at least 8 characters")] } : HRes).status = 400 :=
  ⟨rfl, C8_validatePassword_correct.2.1 [("password", .str "0nly7ch")] _ rfl⟩

/-- C10: the profile-update validator treats `null` asymmetrically: a `null`
`phone` passes validation (only the phone branch also tests for `null`),
while a `null` `name`, `bio` or `age` is rejected with a 400 client
error. -/
theorem C10_profile_validator_null_asymmetry :
    (∀ body : Body, body.lookup "name" = some .null →
      validateUserProfileUpdate body =
        .error { status := 400, body := [("error", .str "Name must be a non-empty string")] }) ∧
    (∀ body : Body, body.lookup "bio" = some .null →
      ∃ r, validateUserProfileUpdate body = .error r ∧ r.status = 400) ∧
    (∀ body : Body, body.lookup "age" = some .null →
      ∃ r, validateUserProfileUpdate body = .error r ∧ r.status = 400) ∧
    (∀ body : Body,
      checkName (body.lookup "name") = .ok () →
      checkBio (body.lookup "bio") = .ok () →
      checkAge (body.lookup "age") = .ok () →
      body.lookup "phone" = some .null →
      validateUserProfileUpdate body = .ok ()) ∧
    validateUserProfileUpdate [("phone", .null)] = .ok () ∧
    validateUserProfileUpdate [("name", .null)] =
      .error { status := 400, body := [("error", .str "Name must be a non-empty string")] } ∧
    validateUserProfileUpdate [("bio", .null)] =
      .error { status := 400, body := [("error", .str "Bio must be a string")] } ∧
    validateUserProfileUpdate [("age", .null)] =
      .error { status := 400, body := [("error", .str "Age must be a number between 0 and 150")] } := by
  refine ⟨fun body hn => ?_, fun body hb => ?_, fun body ha => ?_,
    fun body hn hb ha hp => ?_, rfl, rfl, rfl, rfl⟩
  · simp [validateUserProfileUpdate, hn, checkName]
  · cases hcn : checkName (body.lookup "name") with
    | error r =>
      exact ⟨r, by simp [validateUserProfileUpdate, hcn],
        checkName_error_status _ _ hcn⟩
    | ok u =>
      cases u
      refine ⟨{ status := 400, body := [("error", .str "Bio must be a string")] }, ?_, rfl⟩
      simp [validateUserProfileUpdate, hcn, hb, checkBio]
  · cases hcn : checkName (body.lookup "name") with
    | error r =>
      exact ⟨r, by simp [validateUserProfileUpdate, hcn],
        checkName_error_status _ _ hcn⟩
    | ok u =>
      cases u
      cases hcb : checkBio (body.lookup "bio") with
      | error r =>
        exact ⟨r, by simp [validateUserProfileUpdate, hcn, hcb],
          checkBio_error_status _ _ hcb⟩
      | ok u =>
        cases u
        refine ⟨{ status := 400,
                  body := [("error", .str "Age must be a number between 0 and 150")] }, ?_, rfl⟩
        simp [validateUserProfileUpdate, hcn, hcb, ha, checkAge]
  · simp [validateUserProfileUpdate, hn, hb, ha, hp, checkPhone]

/-- C10 witness: a body whose `phone` is `null` passes, through the theorem. -/
theorem C10_profile_validator_null_asymmetry_witness :
    checkName ((([("phone", JsVal.null)] : Body)).lookup "name") = .ok () ∧
    validateUserProfileUpdate [("phone", JsVal.null)] = .ok () :=
  ⟨rfl, C10_profile_validator_null_asymmetry.2.2.2.1 [("phone", JsVal.null)] rfl rfl rfl rfl⟩

/-- C2: whenever `UserService.createUser` succeeds, the password persisted
through the gateway is `bcrypt.hash(password, 10)` — the hash with cost
factor 10 — and (bcrypt being a one-way hash, whose output never equals
its input) never the plaintext password supplied. -/
theorem C2_createUser_persists_hash :
    ∀ (hash : String → Nat → String) (email pw : String)
      (name bio age phone : Option JsVal) (st : Store) (u : User) (st' : Store),
      hash pw 10 ≠ pw →
      UserService.createUser hash email pw name bio age phone st = .ok (u, st') →
      u.password = hash pw 10 ∧ u.password ≠ pw ∧ u ∈ st'.users := by
  intro hash email pw name bio age phone st u st' hne h
  unfold UserService.createUser UserRepository.findByEmail UserRepository.create
    prismaCreate at h
  cases hfe : prismaFindByEmail st email with
  | some v =>
    simp only [hfe] at h
    exact Except.noConfusion h
  | none =>
    simp only [hfe] at h
    cases hn : toColStr name with
    | error e =>
      simp only [hn, exceptBind_error] at h
      exact Except.noConfusion h
    | ok nv =>
      simp only [hn, exceptBind_ok] at h
      cases hb : toColStr bio with
      | error e =>
        simp only [hb, exceptBind_error] at h
        exact Except.noConfusion h
      | ok bv =>
        simp only [hb, exceptBind_ok] at h
        cases ha : toColInt age with
        | error e =>
          simp only [ha, exceptBind_error] at h
          exact Except.noConfusion h
        | ok av =>
          simp only [ha, exceptBind_ok] at h
          cases hp : toColStr phone with
          | error e =>
            simp only [hp, exceptBind_error] at h
            exact Except.noConfusion h
          | ok pv =>
            simp only [hp, exceptBind_ok, Except.ok.injEq, Prod.mk.injEq] at h
            obtain ⟨hu, hst⟩ := h
            subst hu
            subst hst
            refine ⟨rfl, hne, ?_⟩
            simp

/-- C2 witness: a concrete registration through the theorem. -/
theorem C2_createUser_persists_hash_witness :
    ("$2b$10$" ++ "abc12345" ≠ "abc12345") ∧
    (({ id := 1, email := "x@y.com", password := "$2b$10$" ++ "abc12345" } : User).password =
        "$2b$10$" ++ "abc12345" ∧
      ({ id := 1, email := "x@y.com", password := "$2b$10$" ++ "abc12345" } : User).password ≠
        "abc12345" ∧
      ({ id := 1, email := "x@y.com", password := "$2b$10$" ++ "abc12345" } : User) ∈
        ({ users := [{ id := 1, email := "x@y.com", password := "$2b$10$" ++ "abc12345" }],
           nextId := 2 } : Store).users) :=
  ⟨by decide,
    C2_createUser_persists_hash (fun p _ => "$2b$10$" ++ p) "x@y.com" "abc12345"
      none none none none { users := [], nextId := 1 } _ _ (by decide) rfl⟩

/-- C3: registering twice with the same email against the same store
succeeds the first time and fails the second time with the
`User with this email already exists` error, whatever the second call's
password and profile fields are. -/
theorem C3_duplicate_email_registration :
    ∀ (hash : String → Nat → String) (email pw : String)
      (name bio age phone : Option JsVal) (st : Store),
      prismaFindByEmail st email = none →
      strish name = true → strish bio = true → numish age = true → strish phone = true →
      ∃ u st', UserService.createUser hash email pw name bio age phone st = .ok (u, st') ∧
        ∀ (pw2 : String) (n2 b2 a2 p2 : Option JsVal),
          UserService.createUser hash email pw2 n2 b2 a2 p2 st' =
            .error (.msg "User with this email already exists") := by
  intro hash email pw name bio age phone st hfe h1 h2 h3 h4
  have hfe' : st.users.find? (fun v => v.email == email) = none := hfe
  refine ⟨{ id := st.nextId, email := email, password := hash pw 10,
            name := applyS name none, bio := applyS bio none,
            age := applyN age none, phone := applyS phone none },
          { users := st.users ++
              [{ id := st.nextId, email := email, password := hash pw 10,
                 name := applyS name none, bio := applyS bio none,
                 age := applyN age none, phone := applyS phone none }],
            nextId := st.nextId + 1 }, ?_, ?_⟩
  · unfold UserService.createUser UserRepository.findByEmail UserRepository.create
    simp only [hfe]
    exact prismaCreate_ok st
      { email := email, password := hash pw 10, name := name, bio := bio,
        age := age, phone := phone } hfe h1 h2 h3 h4
  · intro pw2 n2 b2 a2 p2
    unfold UserService.createUser UserRepository.findByEmail
    have hfind : prismaFindByEmail
        { users := st.users ++
            [{ id := st.nextId, email := email, password := hash pw 10,
               name := applyS name none, bio := applyS bio none,
               age := applyN age none, phone := applyS phone none }],
          nextId := st.nextId + 1 } email =
        some { id := st.nextId, email := email, password := hash pw 10,
               name := applyS name none, bio := applyS bio none,
               age := applyN age none, phone := applyS phone none } := by
      show (st.users ++
          ([{ id := st.nextId, email := email, password := hash pw 10,
              name := applyS name none, bio := applyS bio none,
              age := applyN age none, phone := applyS phone none }] : List User)).find?
          (fun v => v.email == email) = some _
      rw [find?_append_none _ _ _ hfe']
      simp [List.find?]
    simp only [hfind]

/-- C3 witness: concrete double registration through the theorem. -/
theorem C3_duplicate_email_registration_witness :
    prismaFindByEmail { users := [], nextId := 1 } "x@y.com" = none ∧
    (∃ u st',
      UserService.createUser (fun p _ => "$2b$10$" ++ p) "x@y.com" "abc12345"
        none none none none { users := [], nextId := 1 } = .ok (u, st') ∧
      ∀ (pw2 : String) (n2 b2 a2 p2 : Option JsVal),
        UserService.createUser (fun p _ => "$2b$10$" ++ p) "x@y.com" pw2 n2 b2 a2 p2 st' =
          .error (.msg "User with this email already exists")) :=
  ⟨rfl,
    C3_duplicate_email_registration (fun p _ => "$2b$10$" ++ p) "x@y.com" "abc12345"
      none none none none { users := [], nextId := 1 } rfl rfl rfl rfl rfl⟩

/-- C4: authentication raises the one generic `Invalid credentials` error
both when no account has the email and when the stored hash does not match,
so the two failures are indistinguishable; on success it returns the
account with the password key removed. -/
theorem C4_authenticate_single_error_kind :
    ∀ (compare : String → String → Bool) (email pw : String) (st : Store),
      (prismaFindByEmail st email = none →
        UserService.authenticateUser compare email pw st =
          .error (.msg "Invalid credentials")) ∧
      (∀ u, prismaFindByEmail st email = some u → compare pw u.password = false →
        UserService.authenticateUser compare email pw st =
          .error (.msg "Invalid credentials")) ∧
      (∀ u, prismaFindByEmail st email = some u → compare pw u.password = true →
        UserService.authenticateUser compare email pw st =
          .ok (stripPassword (userToObj u)) ∧
        (stripPassword (userToObj u)).lookup "password" = none) := by
  intro compare email pw st
  refine ⟨fun h => ?_, fun u hu hc => ?_, fun u hu hc => ⟨?_, lookup_stripPassword _⟩⟩
  · unfold UserService.authenticateUser UserRepository.findByEmail
    simp only [h]
  · unfold UserService.authenticateUser UserRepository.findByEmail
    simp only [hu, hc]
    rfl
  · unfold UserService.authenticateUser UserRepository.findByEmail
    simp only [hu, hc]
    rfl

/-- C4 witness: both failure modes produce the identical error value,
through the theorem. -/
theorem C4_authenticate_single_error_kind_witness :
    prismaFindByEmail { users := [], nextId := 1 } "a@b.co" = none ∧
    UserService.authenticateUser (fun p h => h == "$2b$10$" ++ p) "a@b.co" "pw1"
      { users := [], nextId := 1 } = .error (.msg "Invalid credentials") :=
  ⟨rfl,
    (C4_authenticate_single_error_kind (fun p h => h == "$2b$10$" ++ p) "a@b.co" "pw1"
      { users := [], nextId := 1 }).1 rfl⟩

/-- C5: the gateway's update and delete fail with the typed `NotFound`
storage error when the id does not exist (and succeed otherwise for
delete), and at the HTTP boundary every update response is one of the
sanitized typed shapes — a 200 success, the fixed 404/400 bodies or the
generic 500 — never a raw storage-layer payload. -/
theorem C5_gateway_typed_notFound :
    (∀ (st : Store) (i : Int) (d : UpdateData),
      st.users.find? (fun v => v.id == i) = none →
        UserRepository.update st (some i) d = .error (.storeErr .notFound) ∧
        UserRepository.delete st (some i) = .error (.storeErr .notFound)) ∧
    (∀ (st : Store) (i : Int) (u : User),
      st.users.find? (fun v => v.id == i) = some u →
        UserRepository.delete st (some i) =
          .ok (u, { users := st.users.filter (fun v => !(v.id == i)),
                    nextId := st.nextId })) ∧
    (∀ (idStr : String) (body : Body) (st : Store),
      (UserController.updateUserProfile idStr body st).1.status = 200 ∨
      (UserController.updateUserProfile idStr body st).1 =
        { status := 404, body := [("error", .str "User not found")] } ∨
      (UserController.updateUserProfile idStr body st).1 =
        { status := 400, body := [("error", .str "Invalid age")] } ∨
      (UserController.updateUserProfile idStr body st).1 =
        { status := 500, body := [("error", .str "Internal server error")] }) := by
  refine ⟨fun st i d h => ⟨?_, ?_⟩, fun st i u h => ?_, fun idStr body st => ?_⟩
  · unfold UserRepository.update prismaUpdate
    simp only [h]
  · unfold UserRepository.delete prismaDelete
    simp only [h]
  · unfold UserRepository.delete prismaDelete
    simp only [h]
  · cases hres : UserService.updateUserProfile (jsParseInt idStr)
      { name := body.lookup "name", bio := body.lookup "bio",
        age := body.lookup "age", phone := body.lookup "phone" } st with
    | ok p =>
      left
      obtain ⟨u', st'⟩ := p
      simp [UserController.updateUserProfile, hres]
    | error e =>
      by_cases hm1 : errMessage e = "User not found"
      · right; left
        simp [UserController.updateUserProfile, hres, hm1]
      · by_cases hm2 : errMessage e = "Invalid age"
        · right; right; left
          simp [UserController.updateUserProfile, hres, hm1, hm2]
        · right; right; right
          simp [UserController.updateUserProfile, hres, hm1, hm2]

/-- C5 witness: update and delete on an absent id, through the theorem. -/
theorem C5_gateway_typed_notFound_witness :
    (({ users := [], nextId := 1 } : Store).users.find? (fun v => v.id == (7 : Int)) = none) ∧
    UserRepository.update { users := [], nextId := 1 } (some 7) {} =
      .error (.storeErr .notFound) ∧
    UserRepository.delete { users := [], nextId := 1 } (some 7) =
      .error (.storeErr .notFound) :=
  ⟨rfl, C5_gateway_typed_notFound.1 { users := [], nextId := 1 } 7 {} rfl⟩

/-- C1: no success response of the good-practice pipeline carries a
`password` key: the created and updated user objects in the 201/200
payloads and the 200 profile body all have the password destructured
away. -/
theorem C1_password_stripped_from_responses :
    (∀ (hash : String → Nat → String) (email pw : String)
       (name bio age phone : Option JsVal) (st : Store),
      (UserController.createUser hash email pw name bio age phone st).1.status = 201 →
      ∃ o, (UserController.createUser hash email pw name bio age phone st).1.body.lookup "user" =
             some (.obj o) ∧ o.lookup "password" = none) ∧
    (∀ (idStr : String) (st : Store),
      (UserController.getUserProfile idStr st).status = 200 →
      (UserController.getUserProfile idStr st).body.lookup "password" = none) ∧
    (∀ (idStr : String) (body : Body) (st : Store),
      (UserController.updateUserProfile idStr body st).1.status = 200 →
      ∃ o, (UserController.updateUserProfile idStr body st).1.body.lookup "user" =
             some (.obj o) ∧ o.lookup "password" = none) := by
  refine ⟨fun hash email pw name bio age phone st => ?_,
    fun idStr st => ?_, fun idStr body st => ?_⟩
  · cases hres : UserService.createUser hash email pw name bio age phone st with
    | ok p =>
      obtain ⟨u, st'⟩ := p
      intro _
      refine ⟨stripPassword (userToObj u), ?_, lookup_stripPassword _⟩
      simp [UserController.createUser, hres, List.lookup]
    | error e =>
      intro hst
      exfalso
      by_cases hm : errMessage e = "User with this email already exists"
      · simp [UserController.createUser, hres, hm] at hst
      · simp [UserController.createUser, hres, hm] at hst
  · cases hres : UserService.getUserProfile (jsParseInt idStr) st with
    | ok user =>
      intro _
      have : (UserController.getUserProfile idStr st).body = user := by
        simp [UserController.getUserProfile, hres]
      rw [this]
      have hform : ∃ u, UserService.getUserProfile (jsParseInt idStr) st =
          .ok (stripPassword (userToObj u)) := by
        unfold UserService.getUserProfile at hres ⊢
        cases hfind : UserRepository.findById st (jsParseInt idStr) with
        | none => rw [hfind] at hres; exact Except.noConfusion hres
        | some u => exact ⟨u, rfl⟩
      obtain ⟨u, hu⟩ := hform
      rw [hres] at hu
      injection hu with hu2
      rw [hu2]
      exact lookup_stripPassword _
    | error e =>
      intro hst
      exfalso
      by_cases hm : errMessage e = "User not found"
      · simp [UserController.getUserProfile, hres, hm] at hst
      · simp [UserController.getUserProfile, hres, hm] at hst
  · cases hres : UserService.updateUserProfile (jsParseInt idStr)
      { name := body.lookup "name", bio := body.lookup "bio",
        age := body.lookup "age", phone := body.lookup "phone" } st with
    | ok p =>
      obtain ⟨u, st'⟩ := p
      intro _
      refine ⟨stripPassword (userToObj u), ?_, lookup_stripPassword _⟩
      simp [UserController.updateUserProfile, hres, List.lookup]
    | error e =>
      intro hst
      exfalso
      by_cases hm1 : errMessage e = "User not found"
      · simp [UserController.updateUserProfile, hres, hm1] at hst
      · by_cases hm2 : errMessage e = "Invalid age"
        · simp [UserController.updateUserProfile, hres, hm1, hm2] at hst
        · simp [UserController.updateUserProfile, hres, hm1, hm2] at hst

/-- C1 witness: a concrete successful registration's payload, through the
theorem. -/
theorem C1_password_stripped_from_responses_witness :
    ((UserController.createUser (fun p _ => "$2b$10$" ++ p) "x@y.com" "abc12345"
        none none none none { users := [], nextId := 1 }).1.status = 201) ∧
    ∃ o, (UserController.createUser (fun p _ => "$2b$10$" ++ p) "x@y.com" "abc12345"
        none none none none { users := [], nextId := 1 }).1.body.lookup "user" =
          some (.obj o) ∧ o.lookup "password" = none :=
  ⟨rfl,
    C1_password_stripped_from_responses.1 (fun p _ => "$2b$10$" ++ p) "x@y.com" "abc12345"
      none none none none { users := [], nextId := 1 } rfl⟩

/-- C7: profile update fails with 404 `User not found` when the id does not
resolve; with an existing account and an age outside 0–150 it fails with
the 400 `Invalid age` error and the store is unchanged; otherwise it
succeeds and persists exactly the four allowed fields — id, email and
password are untouched and any other key of the request body is dropped —
and a subsequent `getProfile` reflects exactly the allowed updates. -/
theorem C7_updateProfile_persists_allowed_fields :
    ∀ (idStr : String) (body : Body) (st : Store) (i : Int),
      jsParseInt idStr = some i →
      ((st.users.find? (fun v => v.id == i) = none →
        UserController.updateUserProfile idStr body st =
          ({ status := 404, body := [("error", .str "User not found")] }, st)) ∧
      (∀ (u : User) (n : Int), st.users.find? (fun v => v.id == i) = some u →
        body.lookup "age" = some (.num n) → (n < 0 ∨ 150 < n) →
        UserController.updateUserProfile idStr body st =
          ({ status := 400, body := [("error", .str "Invalid age")] }, st)) ∧
      (∀ u : User, st.users.find? (fun v => v.id == i) = some u →
        strish (body.lookup "name") = true → strish (body.lookup "bio") = true →
        numish (body.lookup "age") = true → strish (body.lookup "phone") = true →
        ageInvalid (body.lookup "age") = false →
        ∃ u' st',
          UserController.updateUserProfile idStr body st =
            ({ status := 200,
               body := [("message", .str "Profile updated successfully"),
                        ("user", .obj (stripPassword (userToObj u')))] }, st') ∧
          u'.id = u.id ∧ u'.email = u.email ∧ u'.password = u.password ∧
          u'.name = applyS (body.lookup "name") u.name ∧
          u'.bio = applyS (body.lookup "bio") u.bio ∧
          u'.age = applyN (body.lookup "age") u.age ∧
          u'.phone = applyS (body.lookup "phone") u.phone ∧
          (stripPassword (userToObj u')).lookup "password" = none ∧
          UserService.getUserProfile (some i) st' = .ok (stripPassword (userToObj u')) ∧
          (∀ v ∈ st.users, v.id ≠ i → v ∈ st'.users))) := by
  intro idStr body st i hid
  refine ⟨fun hnone => ?_, fun u n hu hage hout => ?_, fun u hu h1 h2 h3 h4 hageok => ?_⟩
  · have hsvc : UserService.updateUserProfile (jsParseInt idStr)
        { name := body.lookup "name", bio := body.lookup "bio",
          age := body.lookup "age", phone := body.lookup "phone" } st =
        .error (.msg "User not found") := by
      unfold UserService.updateUserProfile UserRepository.findById prismaFindById
      simp only [hid, hnone]
    simp [UserController.updateUserProfile, hsvc, errMessage]
  · have hinv : ageInvalid (body.lookup "age") = true := by
      rw [hage]
      simp only [ageInvalid]
      rcases hout with h | h
      · simp [h]
      · simp [h]
    have hsvc : UserService.updateUserProfile (jsParseInt idStr)
        { name := body.lookup "name", bio := body.lookup "bio",
          age := body.lookup "age", phone := body.lookup "phone" } st =
        .error (.msg "Invalid age") := by
      unfold UserService.updateUserProfile UserRepository.findById prismaFindById
      simp [hid, hu, hinv]
    simp [UserController.updateUserProfile, hsvc, errMessage]
  · have happ : applyUpdate
        { name := body.lookup "name", bio := body.lookup "bio",
          age := body.lookup "age", phone := body.lookup "phone" } u =
        .ok { u with
              name := applyS (body.lookup "name") u.name,
              bio := applyS (body.lookup "bio") u.bio,
              age := applyN (body.lookup "age") u.age,
              phone := applyS (body.lookup "phone") u.phone } :=
      applyUpdate_ok _ _ h1 h2 h3 h4
    have hui : u.id = i := by
      have h5 := List.find?_some hu
      simpa using h5
    refine ⟨{ u with
              name := applyS (body.lookup "name") u.name,
              bio := applyS (body.lookup "bio") u.bio,
              age := applyN (body.lookup "age") u.age,
              phone := applyS (body.lookup "phone") u.phone },
            { users := st.users.map (fun v => if v.id == i then
                { u with
                  name := applyS (body.lookup "name") u.name,
                  bio := applyS (body.lookup "bio") u.bio,
                  age := applyN (body.lookup "age") u.age,
                  phone := applyS (body.lookup "phone") u.phone } else v),
              nextId := st.nextId },
            ?_, rfl, rfl, rfl, rfl, rfl, rfl, rfl, lookup_stripPassword _, ?_, ?_⟩
    · have hsvc : UserService.updateUserProfile (jsParseInt idStr)
          { name := body.lookup "name", bio := body.lookup "bio",
            age := body.lookup "age", phone := body.lookup "phone" } st =
          .ok ({ u with
                 name := applyS (body.lookup "name") u.name,
                 bio := applyS (body.lookup "bio") u.bio,
                 age := applyN (body.lookup "age") u.age,
                 phone := applyS (body.lookup "phone") u.phone },
               { users := st.users.map (fun v => if v.id == i then
                   { u with
                     name := applyS (body.lookup "name") u.name,
                     bio := applyS (body.lookup "bio") u.bio,
                     age := applyN (body.lookup "age") u.age,
                     phone := applyS (body.lookup "phone") u.phone } else v),
                 nextId := st.nextId }) := by
        unfold UserService.updateUserProfile UserRepository.findById prismaFindById
          UserRepository.update prismaUpdate
        simp [hid, hu, hageok, happ]
      simp [UserController.updateUserProfile, hsvc]
    · unfold UserService.getUserProfile UserRepository.findById prismaFindById
      have hfind2 := find?_replace st.users i u
        { u with
          name := applyS (body.lookup "name") u.name,
          bio := applyS (body.lookup "bio") u.bio,
          age := applyN (body.lookup "age") u.age,
          phone := applyS (body.lookup "phone") u.phone } hu hui
      simp only [hfind2]
    · intro v hv hne
      exact mem_map_replace st.users i _ v hv hne

/-- C7 witness: a concrete update with `age` 30 and extraneous `email`,
`password` and `id` keys in the body, through the theorem. -/
theorem C7_updateProfile_persists_allowed_fields_witness :
    jsParseInt "1" = some 1 ∧
    (({ users := [{ id := 1, email := "a@b.co", password := "H" }],
        nextId := 2 } : Store).users.find? (fun v => v.id == (1 : Int)) =
      some { id := 1, email := "a@b.co", password := "H" }) ∧
    ageInvalid (([("age", JsVal.num 30), ("email", JsVal.str "evil@x"),
        ("password", JsVal.str "hack"), ("id", JsVal.num 99)] : Body).lookup "age") = false ∧
    (∃ u' st',
      UserController.updateUserProfile "1"
          [("age", JsVal.num 30), ("email", JsVal.str "evil@x"),
           ("password", JsVal.str "hack"), ("id", JsVal.num 99)]
          { users := [{ id := 1, email := "a@b.co", password := "H" }], nextId := 2 } =
        ({ status := 200,
           body := [("message", .str "Profile updated successfully"),
                    ("user", .obj (stripPassword (userToObj u')))] }, st') ∧
      u'.id = ({ id := 1, email := "a@b.co", password := "H" } : User).id ∧
      u'.email = ({ id := 1, email := "a@b.co", password := "H" } : User).email ∧
      u'.password = ({ id := 1, email := "a@b.co", password := "H" } : User).password ∧
      u'.name = applyS (([("age", JsVal.num 30), ("email", JsVal.str "evil@x"),
          ("password", JsVal.str "hack"), ("id", JsVal.num 99)] : Body).lookup "name")
        ({ id := 1, email := "a@b.co", password := "H" } : User).name ∧
      u'.bio = applyS (([("age", JsVal.num 30), ("email", JsVal.str "evil@x"),
          ("password", JsVal.str "hack"), ("id", JsVal.num 99)] : Body).lookup "bio")
        ({ id := 1, email := "a@b.co", password := "H" } : User).bio ∧
      u'.age = applyN (([("age", JsVal.num 30), ("email", JsVal.str "evil@x"),
          ("password", JsVal.str "hack"), ("id", JsVal.num 99)] : Body).lookup "age")
        ({ id := 1, email := "a@b.co", password := "H" } : User).age ∧
      u'.phone = applyS (([("age", JsVal.num 30), ("email", JsVal.str "evil@x"),
          ("password", JsVal.str "hack"), ("id", JsVal.num 99)] : Body).lookup "phone")
        ({ id := 1, email := "a@b.co", password := "H" } : User).phone ∧
      (stripPassword (userToObj u')).lookup "password" = none ∧
      UserService.getUserProfile (some 1) st' = .ok (stripPassword (userToObj u')) ∧
      (∀ v ∈ ({ users := [{ id := 1, email := "a@b.co", password := "H" }],
                nextId := 2 } : Store).users, v.id ≠ 1 → v ∈ st'.users)) :=
  ⟨by decide, rfl, rfl,
    (C7_updateProfile_persists_allowed_fields "1"
        [("age", JsVal.num 30), ("email", JsVal.str "evil@x"),
         ("password", JsVal.str "hack"), ("id", JsVal.num 99)]
        { users := [{ id := 1, email := "a@b.co", password := "H" }], nextId := 2 }
        1 (by decide)).2.2
      { id := 1, email := "a@b.co", password := "H" } rfl rfl rfl rfl rfl rfl⟩
